import Mathlib

/-!
# SafeRoute backend — verification of the hazard lifecycle specification

Shallow embedding of the SafeRoute hazard-reporting backend (FastAPI +
SQLAlchemy).  The persisted state is modelled as lists of rows whose fields
are exactly the mapped columns declared in `models.py`; the route handlers of
`hazards_routes.py`, `authority_routes.py` and the dependencies of `auth.py`
are translated into pure functions returning `Except` values, where a raised
`HTTPException` (or an uncaught Python exception) is an `error`.

Python facts the embedding relies on (checked against CPython / SQLAlchemy):
* For an enum declared `class HazardStatus(str, Enum)`, `str(member)` is
  `Enum.__str__` — `enum.py` installs `Enum.__str__` on mixed-in enum
  classes — and therefore yields `"HazardStatus.<NAME>"`, never the member's
  `.value`.
* A `Column(SQLEnum(HazardStatus))` attribute loads as the enum *member*;
  the database stores member names, and a bind parameter given as a name
  string (here names equal values) matches rows of that status.
* Assigning an attribute that is not a mapped column of the model sets a
  transient Python attribute: it is never written to the database and is
  absent after a reload.  Reading an attribute that neither the instance nor
  the model defines raises `AttributeError`.
* `Column(..., onupdate=datetime.utcnow)` rewrites the column on every ORM
  `UPDATE` of the row.
* `timedelta.days` is the floor of the total duration in units of 86400 s.
* `x or y` returns `y` when `x` is `None` or the empty string.

Timestamps are modelled as integer seconds; `datetime.utcnow()` becomes an
explicit `now` argument, and generated `uuid4` identifiers become explicit
arguments.
-/

namespace SafeRoute

/-- Timestamp in whole seconds, standing for a Python `datetime`. -/
abbrev DateTime := Int

/-- `HazardType` from `models.py` (ACCIDENT / POTHOLE / ROADBLOCK). -/
inductive HazardType
  | ACCIDENT
  | POTHOLE
  | ROADBLOCK
deriving DecidableEq

/-- `HazardStatus` from `models.py`: the four lifecycle states, including the
`REPORTED` default state that `report_hazard` never assigns. -/
inductive HazardStatus
  | REPORTED
  | PENDING_AUTHORITY
  | VERIFIED
  | RESOLVED
deriving DecidableEq

/-- `.value` of a `HazardStatus` member (member names equal their values). -/
def HazardStatus.value : HazardStatus → String
  | .REPORTED => "REPORTED"
  | .PENDING_AUTHORITY => "PENDING_AUTHORITY"
  | .VERIFIED => "VERIFIED"
  | .RESOLVED => "RESOLVED"

/-- Python `str()` applied to a `HazardStatus` member.  `HazardStatus` mixes
`str` into `Enum`, and for mixed-in enums CPython's `enum.py` installs
`Enum.__str__`, so `str(member)` is the qualified `"HazardStatus.<NAME>"`
form, not the bare value. -/
def HazardStatus.pyStr (s : HazardStatus) : String :=
  "HazardStatus." ++ s.value

/-- `AuthorityLevel` from `models.py` (LOCAL / STATE / NATIONAL). -/
inductive AuthorityLevel
  | LOCAL
  | STATE
  | NATIONAL
deriving DecidableEq

/-- `.value` of an `AuthorityLevel` member (names equal values). -/
def AuthorityLevel.value : AuthorityLevel → String
  | .LOCAL => "LOCAL"
  | .STATE => "STATE"
  | .NATIONAL => "NATIONAL"

/-- A persisted `hazards` row: exactly the mapped columns of `Hazard` in
`models.py`.  Note that `models.py` declares *no* `verified_at` column on
`Hazard` (its nullable timestamps are `observed_at` and `resolved_at`). -/
structure Hazard where
  id : String
  hazard_type : HazardType
  latitude : Rat
  longitude : Rat
  observed_at : Option DateTime
  status : HazardStatus
  created_at : DateTime
  updated_at : DateTime
  resolved_at : Option DateTime
deriving DecidableEq

/-- An in-memory ORM `Hazard` instance: the mapped row together with the
transient attribute `verified_at` that `verify_hazard` assigns.  Since
`models.py` maps no `verified_at` column, this attribute lives only on the
Python object and is never persisted. -/
structure HazardObj where
  row : Hazard
  verified_at : Option DateTime
deriving DecidableEq

/-- Committing an ORM instance writes only its mapped columns. -/
def persistHazard (o : HazardObj) : Hazard :=
  o.row

/-- Loading a `hazards` row yields an instance carrying only mapped columns:
the transient `verified_at` attribute of a previous instance is gone. -/
def loadHazard (r : Hazard) : HazardObj :=
  { row := r, verified_at := none }

/-- A persisted `audit_logs` row from `models.py`.  The status columns are
modelled as the strings the route handlers actually pass for them. -/
structure AuditLog where
  id : String
  hazard_id : String
  authority_id : Option String
  action : String
  old_status : String
  new_status : String
  notes : Option String
  timestamp : DateTime
deriving DecidableEq

/-- A persisted `authorities` row from `models.py` (credential columns that
no claim touches are omitted). -/
structure Authority where
  id : String
  name : String
  email : String
  level : AuthorityLevel
  jurisdiction : String
  is_active : Bool
deriving DecidableEq

/-- A persisted `authority_verifications` row from `models.py`.  Its columns
are `token`, `token_expires_at`, `is_verified`, `verified_at`,
`rejection_reason` — there is no `used`, `used_at` or `expires_at` column. -/
structure AuthorityVerification where
  id : String
  hazard_id : String
  authority_id : String
  token : String
  token_expires_at : DateTime
  is_verified : Bool
  verified_at : Option DateTime
  rejection_reason : Option String
deriving DecidableEq

/-- The relational store: one list per table, in insertion order. -/
structure DB where
  hazards : List Hazard
  audit_logs : List AuditLog
  authorities : List Authority
  verifications : List AuthorityVerification
deriving DecidableEq

/-- Outcomes a route handler can raise instead of returning: the
`HTTPException`s of the source, plus `attributeError` for an uncaught Python
`AttributeError` (surfacing as a 500 response). -/
inductive ApiError
  | validationError (detail : String)
  | unauthorized (detail : String)
  | forbidden (detail : String)
  | notFound (detail : String)
  | badRequest (detail : String)
  | attributeError (missing : String)
deriving DecidableEq

instance {ε α : Type} [DecidableEq ε] [DecidableEq α] : DecidableEq (Except ε α) := by
  intro a b
  cases a <;> cases b
  case error.error e1 e2 =>
    exact decidable_of_iff (e1 = e2) (by constructor <;> intro h <;> simp_all)
  case ok.ok v1 v2 =>
    exact decidable_of_iff (v1 = v2) (by constructor <;> intro h <;> simp_all)
  all_goals exact isFalse (by intro h; exact Except.noConfusion h)

/-- Is the result a raised error? -/
def isErr {ε α : Type} : Except ε α → Bool
  | .error _ => true
  | .ok _ => false

/-- Did the request fail with a 403 permission error? -/
def isPermissionDenied {α : Type} : Except ApiError α → Bool
  | .error (.forbidden _) => true
  | _ => false

/-- State left behind by a request: a raised exception aborts the handler
before `db.commit()`, so the store keeps its prior contents; a successful
handler commits the new state. -/
def applyResult {ε α : Type} (db : DB) : Except ε (DB × α) → DB
  | .ok (db', _) => db'
  | .error _ => db

/-- Python's `notes or default` for an `Optional[str]`: `None` and the empty
string are falsy. -/
def orDefault (notes : Option String) (default : String) : String :=
  match notes with
  | none => default
  | some s => if s = "" then default else s

/-- `GET /hazards/verified` (`get_verified_hazards_for_driver` in
`hazards_routes.py`): `SELECT` hazards with `status == VERIFIED`,
`ORDER BY created_at DESC`, `LIMIT limit`.  The descending sort is modelled
by a stable merge sort over the stored list. -/
def get_verified_hazards_for_driver (db : DB) (limit : Nat) : List Hazard :=
  ((db.hazards.filter (fun h => h.status == HazardStatus.VERIFIED)).mergeSort
    (fun a b => decide (b.created_at ≤ a.created_at))).take limit

/-- Response of `GET /authority/stats` (`get_authority_stats`). -/
structure StatsResponse where
  pending_authority : Nat
  verified : Nat
  resolved : Nat
  total : Nat
deriving DecidableEq

/-- `GET /authority/stats` (`get_authority_stats` in `authority_routes.py`):
three filtered `COUNT` queries — each comparing the status column with a
`.value` string, which SQLEnum resolves to the member of that name — and
`total` computed as their sum.  No query counts `REPORTED` rows. -/
def get_authority_stats (db : DB) : StatsResponse :=
  { pending_authority :=
      (db.hazards.filter (fun h => h.status == HazardStatus.PENDING_AUTHORITY)).length
  , verified :=
      (db.hazards.filter (fun h => h.status == HazardStatus.VERIFIED)).length
  , resolved :=
      (db.hazards.filter (fun h => h.status == HazardStatus.RESOLVED)).length
  , total :=
      (db.hazards.filter (fun h => h.status == HazardStatus.PENDING_AUTHORITY)).length
      + (db.hazards.filter (fun h => h.status == HazardStatus.VERIFIED)).length
      + (db.hazards.filter (fun h => h.status == HazardStatus.RESOLVED)).length }

/-- The committed row update of `verify_hazard`'s success branch: the
`status` column is assigned `VERIFIED`, the ORM's `onupdate` rewrites
`updated_at` at flush time, and the assignment `hazard.verified_at = ...`
lands in the transient (unmapped) attribute of the instance. -/
def verifyRowObj (hazard : Hazard) (now : DateTime) : HazardObj :=
  { row := { hazard with status := HazardStatus.VERIFIED, updated_at := now }
  , verified_at := some now }

/-- The committed row update of `reject_hazard`'s success branch: only the
`status` column is assigned (RESOLVED); the ORM's `onupdate` rewrites
`updated_at` at flush time.  `resolved_at` is not touched. -/
def rejectRow (hazard : Hazard) (now : DateTime) : Hazard :=
  { hazard with status := HazardStatus.RESOLVED, updated_at := now }

/-- The committed row update of `resolve_hazard`'s success branch: identical
to `rejectRow` (only `status` is assigned, `onupdate` rewrites `updated_at`,
`resolved_at` is not touched). -/
def resolveRow (hazard : Hazard) (now : DateTime) : Hazard :=
  { hazard with status := HazardStatus.RESOLVED, updated_at := now }

/-- `POST /authority/hazards/{id}/verify` (`verify_hazard` in
`authority_routes.py`), after the auth dependency has produced `authority`.
The guard is the source's `current_status = str(hazard.status)` followed by
`current_status != HazardStatus.PENDING_AUTHORITY.value` — comparing the
`"HazardStatus.<NAME>"` string with a bare value.  On success one audit row
with `action="VERIFY"`, `old_status = current_status` and
`new_status = HazardStatus.VERIFIED.value` is added and the hazard row is
committed. -/
def verify_hazard (hazard_id : String) (notes : Option String)
    (authority : Authority) (now : DateTime) (audit_id : String)
    (db : DB) : Except ApiError (DB × HazardObj) :=
  match db.hazards.find? (fun h => h.id == hazard_id) with
  | none => .error (.notFound ("Hazard " ++ hazard_id ++ " not found"))
  | some hazard =>
    if hazard.status.pyStr ≠ HazardStatus.PENDING_AUTHORITY.value then
      .error (.badRequest
        ("Hazard is in " ++ hazard.status.pyStr ++ " status, cannot verify"))
    else
      .ok ({ db with
              hazards := db.hazards.map
                (fun h => if h.id == hazard_id then (verifyRowObj hazard now).row else h)
            , audit_logs := db.audit_logs ++
                [{ id := audit_id
                 , hazard_id := hazard.id
                 , authority_id := some authority.id
                 , action := "VERIFY"
                 , old_status := hazard.status.pyStr
                 , new_status := HazardStatus.VERIFIED.value
                 , notes := some (orDefault notes ("Verified by " ++ authority.email))
                 , timestamp := now }] }
          , verifyRowObj hazard now)

/-- `POST /authority/hazards/{id}/reject` (`reject_hazard` in
`authority_routes.py`): same guard as `verify_hazard` (legal only from
`PENDING_AUTHORITY`, checked via `str(hazard.status)`), transitions directly
to `RESOLVED`, appends one audit row with `action="REJECT"`. -/
def reject_hazard (hazard_id : String) (notes : Option String)
    (authority : Authority) (now : DateTime) (audit_id : String)
    (db : DB) : Except ApiError (DB × Hazard) :=
  match db.hazards.find? (fun h => h.id == hazard_id) with
  | none => .error (.notFound ("Hazard " ++ hazard_id ++ " not found"))
  | some hazard =>
    if hazard.status.pyStr ≠ HazardStatus.PENDING_AUTHORITY.value then
      .error (.badRequest
        ("Hazard is in " ++ hazard.status.pyStr ++ " status, cannot reject"))
    else
      .ok ({ db with
              hazards := db.hazards.map
                (fun h => if h.id == hazard_id then rejectRow hazard now else h)
            , audit_logs := db.audit_logs ++
                [{ id := audit_id
                 , hazard_id := hazard.id
                 , authority_id := some authority.id
                 , action := "REJECT"
                 , old_status := hazard.status.pyStr
                 , new_status := HazardStatus.RESOLVED.value
                 , notes := some (orDefault notes ("Rejected by " ++ authority.email))
                 , timestamp := now }] }
          , rejectRow hazard now)

/-- `POST /authority/hazards/{id}/resolve` (`resolve_hazard` in
`authority_routes.py`): guard compares `str(hazard.status)` with
`HazardStatus.VERIFIED.value`, transitions to `RESOLVED`, appends one audit
row with `action="RESOLVE"`. -/
def resolve_hazard (hazard_id : String) (notes : Option String)
    (authority : Authority) (now : DateTime) (audit_id : String)
    (db : DB) : Except ApiError (DB × Hazard) :=
  match db.hazards.find? (fun h => h.id == hazard_id) with
  | none => .error (.notFound ("Hazard " ++ hazard_id ++ " not found"))
  | some hazard =>
    if hazard.status.pyStr ≠ HazardStatus.VERIFIED.value then
      .error (.badRequest
        ("Hazard is in " ++ hazard.status.pyStr
          ++ " status, cannot resolve (must be VERIFIED)"))
    else
      .ok ({ db with
              hazards := db.hazards.map
                (fun h => if h.id == hazard_id then resolveRow hazard now else h)
            , audit_logs := db.audit_logs ++
                [{ id := audit_id
                 , hazard_id := hazard.id
                 , authority_id := some authority.id
                 , action := "RESOLVE"
                 , old_status := hazard.status.pyStr
                 , new_status := HazardStatus.RESOLVED.value
                 , notes := some (orDefault notes ("Resolved by " ++ authority.email))
                 , timestamp := now }] }
          , resolveRow hazard now)

/-- The part of the decoded JWT payload that `get_current_authority` reads. -/
structure TokenPayload where
  authority_id : Option String
deriving DecidableEq

/-- `get_current_authority` in `auth.py`: extracts `authority_id` from the
decoded JWT payload (token signature/expiry validation is upstream in
`decode_access_token`) and looks the authority up by id.  Despite its
docstring ("Ensures authority is active"), it checks neither `is_active` nor
`level`, and returns any existing authority. -/
def get_current_authority (payload : TokenPayload) (db : DB) :
    Except ApiError Authority :=
  match payload.authority_id with
  | none => .error (.unauthorized "Invalid authentication credentials")
  | some aid =>
    match db.authorities.find? (fun a => a.id == aid) with
    | none => .error (.unauthorized "Authority not found")
    | some a => .ok a

/-- `get_current_verifier` in `auth.py`: the VERIFIER gate.  It tests
membership of `authority.jurisdiction` — the free-text jurisdiction string —
in `[AuthorityLevel.STATE.value, AuthorityLevel.LOCAL.value]`; the `level`
column is not consulted.  No transition endpoint depends on this function:
`verify_hazard`, `reject_hazard` and `resolve_hazard` all declare
`Depends(get_current_authority)`. -/
def get_current_verifier (payload : TokenPayload) (db : DB) :
    Except ApiError Authority :=
  match get_current_authority payload db with
  | .error e => .error e
  | .ok a =>
    if a.jurisdiction = AuthorityLevel.STATE.value
        ∨ a.jurisdiction = AuthorityLevel.LOCAL.value then
      .ok a
    else
      .error (.forbidden "Insufficient permissions. VERIFIER role required.")

/-- The full verify request: FastAPI resolves `Depends(get_current_authority)`
first, then runs the handler body. -/
def verify_endpoint (payload : TokenPayload) (hazard_id : String)
    (notes : Option String) (now : DateTime) (audit_id : String)
    (db : DB) : Except ApiError (DB × HazardObj) :=
  match get_current_authority payload db with
  | .error e => .error e
  | .ok authority => verify_hazard hazard_id notes authority now audit_id db

/-- The full reject request (auth dependency, then handler body). -/
def reject_endpoint (payload : TokenPayload) (hazard_id : String)
    (notes : Option String) (now : DateTime) (audit_id : String)
    (db : DB) : Except ApiError (DB × Hazard) :=
  match get_current_authority payload db with
  | .error e => .error e
  | .ok authority => reject_hazard hazard_id notes authority now audit_id db

/-- The full resolve request (auth dependency, then handler body). -/
def resolve_endpoint (payload : TokenPayload) (hazard_id : String)
    (notes : Option String) (now : DateTime) (audit_id : String)
    (db : DB) : Except ApiError (DB × Hazard) :=
  match get_current_authority payload db with
  | .error e => .error e
  | .ok authority => resolve_hazard hazard_id notes authority now audit_id db

/-- One authority action against a hazard, with its request data. -/
inductive AuthorityOp
  | verifyOp (hazard_id : String) (notes : Option String) (authority : Authority)
      (now : DateTime) (audit_id : String)
  | rejectOp (hazard_id : String) (notes : Option String) (authority : Authority)
      (now : DateTime) (audit_id : String)
  | resolveOp (hazard_id : String) (notes : Option String) (authority : Authority)
      (now : DateTime) (audit_id : String)

/-- Execute one authority action: commit on success, keep the prior state on
a raised exception. -/
def runOp (db : DB) : AuthorityOp → DB
  | .verifyOp hid n a t aid => applyResult db (verify_hazard hid n a t aid db)
  | .rejectOp hid n a t aid => applyResult db (reject_hazard hid n a t aid db)
  | .resolveOp hid n a t aid => applyResult db (resolve_hazard hid n a t aid db)

/-- Replay a sequence of authority actions against the store. -/
def runOps (db : DB) (ops : List AuthorityOp) : DB :=
  ops.foldl runOp db

/-- Python `timedelta.days` of a duration given in seconds: `timedelta`
normalizes with floor semantics, so this is floor division by 86400. -/
def timedeltaDays (seconds : Int) : Int :=
  Int.fdiv seconds 86400

/-- `HazardReportRequest.validate_observed_at` in `schemas.py`: rejects an
`observed_at` strictly in the future, then rejects one whose
`(utcnow() - v).days` exceeds 1 — which requires an age of at least 48
hours, despite the error text speaking of 24 hours. -/
def validate_observed_at (v now : DateTime) : Except String DateTime :=
  if v > now then
    .error "observed_at cannot be in the future"
  else if timedeltaDays (now - v) > 1 then
    .error "observed_at must be within last 24 hours"
  else
    .ok v

/-- Pydantic validation of `HazardReportRequest` in `schemas.py`:
`latitude` constrained by `Field(ge=-90, le=90)`, `longitude` by
`Field(ge=-180, le=180)`, and the `observed_at` validator above.  Any
violation rejects the request before the route body runs. -/
def validateHazardReport (lat lon : Rat) (observed_at now : DateTime) :
    Except String Unit :=
  if ¬(-90 ≤ lat ∧ lat ≤ 90) then
    .error "latitude must be in range -90..90"
  else if ¬(-180 ≤ lon ∧ lon ≤ 180) then
    .error "longitude must be in range -180..180"
  else
    match validate_observed_at observed_at now with
    | .error e => .error e
    | .ok _ => .ok ()

/-- `POST /hazards/report` (`report_hazard` in `hazards_routes.py`): after
request validation, inserts a `Hazard` with `status=PENDING_AUTHORITY`
(overriding the model's `REPORTED` column default) and with
`created_at`/`updated_at` supplied by the `datetime.utcnow` column defaults;
`resolved_at` stays NULL.  A validation failure raises before any row is
created.  The fire-and-forget authority notification task has no effect on
the store. -/
def report_hazard (ty : HazardType) (lat lon : Rat) (observed_at : DateTime)
    (now : DateTime) (new_id : String) (db : DB) :
    Except String (DB × Hazard) :=
  match validateHazardReport lat lon observed_at now with
  | .error e => .error e
  | .ok _ =>
    .ok ({ db with hazards := db.hazards ++
            [{ id := new_id, hazard_type := ty, latitude := lat, longitude := lon
             , observed_at := some observed_at
             , status := HazardStatus.PENDING_AUTHORITY
             , created_at := now, updated_at := now, resolved_at := none }] }
        , { id := new_id, hazard_type := ty, latitude := lat, longitude := lon
          , observed_at := some observed_at
          , status := HazardStatus.PENDING_AUTHORITY
          , created_at := now, updated_at := now, resolved_at := none })

/-- `POST /authority/verify-token` (`verify_authority_token` in
`authority_routes.py`): looks the verification record up by hazard id and
token; when none exists it raises 404 "Invalid verification token".  When
one is found, the next statement reads `verification.used` — but
`AuthorityVerification` in `models.py` defines no `used` attribute (its
columns are `is_verified`, `verified_at`, `token_expires_at`), so Python
raises `AttributeError`; the expiry check (which would read the equally
nonexistent `expires_at`), the mark-as-used write and the success payload
with the authority's details are all unreachable. -/
def verify_authority_token (hazard_id token : String) (db : DB) :
    Except ApiError Authority :=
  match db.verifications.find?
      (fun v => v.hazard_id == hazard_id && v.token == token) with
  | none => .error (.notFound "Invalid verification token")
  | some _ => .error (.attributeError "used")

-- Concrete fixtures used by the closed evaluation theorems.

/-- A hazard awaiting review, as `report_hazard` would create it. -/
def hazardPending : Hazard :=
  { id := "h1", hazard_type := .POTHOLE, latitude := 40, longitude := -74
  , observed_at := some 0, status := .PENDING_AUTHORITY
  , created_at := 0, updated_at := 0, resolved_at := none }

/-- A hazard in the `VERIFIED` state. -/
def hazardVerified : Hazard :=
  { id := "h2", hazard_type := .ACCIDENT, latitude := 41, longitude := -75
  , observed_at := some 0, status := .VERIFIED
  , created_at := 1, updated_at := 1, resolved_at := none }

/-- A NATIONAL-level, deactivated authority. -/
def authNational : Authority :=
  { id := "a-nat", name := "Federal Roads", email := "fed@example.gov"
  , level := .NATIONAL, jurisdiction := "USA", is_active := false }

/-- A NATIONAL-level, deactivated authority whose free-text jurisdiction
string happens to read "STATE". -/
def authOddJurisdiction : Authority :=
  { id := "a-odd", name := "Odd Agency", email := "odd@example.gov"
  , level := .NATIONAL, jurisdiction := "STATE", is_active := false }

/-- Store holding the fixtures above. -/
def dbSample : DB :=
  { hazards := [hazardPending, hazardVerified]
  , audit_logs := []
  , authorities := [authNational, authOddJurisdiction]
  , verifications := [] }

/-- An unused (`is_verified = false`), far-from-expired verification token
record for `hazardPending`. -/
def verificationRecord : AuthorityVerification :=
  { id := "v1", hazard_id := "h1", authority_id := "a-nat", token := "tok123"
  , token_expires_at := 1000000000, is_verified := false, verified_at := none
  , rejection_reason := none }

/-- The sample store extended with the verification token record. -/
def dbWithToken : DB :=
  { dbSample with verifications := [verificationRecord] }

end SafeRoute

namespace SafeRoute

-- ===========================================================================
-- Helper lemmas
-- ===========================================================================

/-- The qualified `str()` form of a status never equals any bare `.value`. -/
theorem pyStr_ne_value (s t : HazardStatus) : s.pyStr ≠ t.value := by
  cases s <;> cases t <;> decide

/-- Every verify attempt raises: unknown ids 404, and any found hazard trips
the status guard because `str(hazard.status)` is the qualified form. -/
theorem verify_hazard_errs (hazard_id : String) (notes : Option String)
    (authority : Authority) (now : DateTime) (audit_id : String) (db : DB) :
    isErr (verify_hazard hazard_id notes authority now audit_id db) = true := by
  unfold verify_hazard
  cases hf : db.hazards.find? (fun h => h.id == hazard_id) with
  | none => rfl
  | some hz =>
    dsimp only
    rw [if_pos (pyStr_ne_value hz.status HazardStatus.PENDING_AUTHORITY)]
    rfl

/-- Every reject attempt raises, for the same reason as `verify_hazard_errs`. -/
theorem reject_hazard_errs (hazard_id : String) (notes : Option String)
    (authority : Authority) (now : DateTime) (audit_id : String) (db : DB) :
    isErr (reject_hazard hazard_id notes authority now audit_id db) = true := by
  unfold reject_hazard
  cases hf : db.hazards.find? (fun h => h.id == hazard_id) with
  | none => rfl
  | some hz =>
    dsimp only
    rw [if_pos (pyStr_ne_value hz.status HazardStatus.PENDING_AUTHORITY)]
    rfl

/-- Every resolve attempt raises, for the same reason as `verify_hazard_errs`. -/
theorem resolve_hazard_errs (hazard_id : String) (notes : Option String)
    (authority : Authority) (now : DateTime) (audit_id : String) (db : DB) :
    isErr (resolve_hazard hazard_id notes authority now audit_id db) = true := by
  unfold resolve_hazard
  cases hf : db.hazards.find? (fun h => h.id == hazard_id) with
  | none => rfl
  | some hz =>
    dsimp only
    rw [if_pos (pyStr_ne_value hz.status HazardStatus.VERIFIED)]
    rfl

/-- A raised error leaves the committed state untouched. -/
theorem applyResult_eq_of_isErr {ε α : Type} (db : DB) (r : Except ε (DB × α))
    (h : isErr r = true) : applyResult db r = db := by
  cases r with
  | error e => rfl
  | ok v => simp [isErr] at h

/-- A single authority action never changes the store. -/
theorem runOp_fixes (db : DB) (op : AuthorityOp) : runOp db op = db := by
  cases op with
  | verifyOp hid n a t aid =>
    exact applyResult_eq_of_isErr db _ (verify_hazard_errs hid n a t aid db)
  | rejectOp hid n a t aid =>
    exact applyResult_eq_of_isErr db _ (reject_hazard_errs hid n a t aid db)
  | resolveOp hid n a t aid =>
    exact applyResult_eq_of_isErr db _ (resolve_hazard_errs hid n a t aid db)

/-- No sequence of authority actions changes the store. -/
theorem runOps_fixes (db : DB) (ops : List AuthorityOp) : runOps db ops = db := by
  induction ops with
  | nil => rfl
  | cons op rest ih =>
    show runOps (runOp db op) rest = db
    rw [runOp_fixes db op]
    exact ih

-- ===========================================================================
-- Claim theorems
-- ===========================================================================

/-- The three status buckets of the stats endpoint partition the non-REPORTED
rows: summed, they count exactly the hazards whose status is not `REPORTED`. -/
theorem statusBuckets_partition (l : List Hazard) :
    (l.filter (fun h => h.status == HazardStatus.PENDING_AUTHORITY)).length
    + (l.filter (fun h => h.status == HazardStatus.VERIFIED)).length
    + (l.filter (fun h => h.status == HazardStatus.RESOLVED)).length
    = (l.filter (fun h => !(h.status == HazardStatus.REPORTED))).length := by
  induction l with
  | nil => rfl
  | cons h t ih =>
    cases hs : h.status <;>
      simp only [List.filter_cons, hs] <;> simp <;> omega

/-- Counting the REPORTED bucket alongside the other three accounts for every
row of the table. -/
theorem statusBuckets_complete (l : List Hazard) :
    (l.filter (fun h => !(h.status == HazardStatus.REPORTED))).length
    + (l.filter (fun h => h.status == HazardStatus.REPORTED)).length
    = l.length := by
  induction l with
  | nil => rfl
  | cons h t ih =>
    cases hs : h.status <;>
      simp only [List.filter_cons, hs] <;> simp <;> omega

/-- C10: for every database state, the stats endpoint's `total` equals the sum
of its `pending_authority`, `verified` and `resolved` buckets, and that total
counts exactly the hazards whose status is not `REPORTED`: a `REPORTED`
hazard is in no bucket and is excluded from the total. -/
theorem getAuthorityStats_total_is_bucket_sum_and_excludes_reported (db : DB) :
    (get_authority_stats db).total
      = (get_authority_stats db).pending_authority
        + (get_authority_stats db).verified
        + (get_authority_stats db).resolved
    ∧ (get_authority_stats db).total
      = (db.hazards.filter (fun h => !(h.status == HazardStatus.REPORTED))).length
    ∧ (get_authority_stats db).total
        + (db.hazards.filter (fun h => h.status == HazardStatus.REPORTED)).length
      = db.hazards.length := by
  refine ⟨rfl, statusBuckets_partition db.hazards, ?_⟩
  rw [show (get_authority_stats db).total
      = (db.hazards.filter (fun h => !(h.status == HazardStatus.REPORTED))).length
      from statusBuckets_partition db.hazards]
  exact statusBuckets_complete db.hazards

/-- C1: for every database state and every limit, the driver read path
returns only hazards whose status is `VERIFIED`, in order of descending
creation timestamp, and at most `limit` of them. -/
theorem getVisibleHazards_verified_sorted_bounded (db : DB) (limit : Nat) :
    (∀ h ∈ get_verified_hazards_for_driver db limit,
        h.status = HazardStatus.VERIFIED)
    ∧ List.Pairwise (fun a b : Hazard => b.created_at ≤ a.created_at)
        (get_verified_hazards_for_driver db limit)
    ∧ (get_verified_hazards_for_driver db limit).length ≤ limit := by
  refine ⟨?_, ?_, ?_⟩
  · intro h hmem
    unfold get_verified_hazards_for_driver at hmem
    have h1 : h ∈ (db.hazards.filter
        (fun h => h.status == HazardStatus.VERIFIED)).mergeSort
        (fun a b => decide (b.created_at ≤ a.created_at)) :=
      List.mem_of_mem_take hmem
    have h2 := (List.mergeSort_perm
      (db.hazards.filter (fun h => h.status == HazardStatus.VERIFIED))
      (fun a b => decide (b.created_at ≤ a.created_at))).mem_iff.mp h1
    have h3 := List.of_mem_filter h2
    exact of_decide_eq_true h3
  · have htrans : ∀ a b c : Hazard,
        decide (b.created_at ≤ a.created_at) = true →
        decide (c.created_at ≤ b.created_at) = true →
        decide (c.created_at ≤ a.created_at) = true := by
      intro a b c hab hbc
      exact decide_eq_true (le_trans (of_decide_eq_true hbc) (of_decide_eq_true hab))
    have htotal : ∀ a b : Hazard,
        (decide (b.created_at ≤ a.created_at)
          || decide (a.created_at ≤ b.created_at)) = true := by
      intro a b
      rcases le_total b.created_at a.created_at with h | h
      · simp [h]
      · simp [h]
    have hs := List.sorted_mergeSort htrans htotal
      (db.hazards.filter (fun h => h.status == HazardStatus.VERIFIED))
    have hp := hs.sublist (List.take_sublist limit _)
    exact hp.imp (fun hab => of_decide_eq_true hab)
  · unfold get_verified_hazards_for_driver
    exact List.length_take_le _ _

/-- C2 (code defect): the status guards compare `str(hazard.status)` — the
`"HazardStatus.<NAME>"` form of the loaded enum member — with a bare
`.value`, so every Verify, Reject and Resolve attempt raises the
invalid-transition `HTTPException` regardless of the hazard's actual status,
and no sequence of authority operations ever changes the store: none of the
specified edges of the lifecycle state machine can be traversed. -/
theorem statusGuard_rejects_every_transition (db : DB) (hazard_id : String)
    (notes : Option String) (authority : Authority) (now : DateTime)
    (audit_id : String) (ops : List AuthorityOp) :
    isErr (verify_hazard hazard_id notes authority now audit_id db) = true
    ∧ isErr (reject_hazard hazard_id notes authority now audit_id db) = true
    ∧ isErr (resolve_hazard hazard_id notes authority now audit_id db) = true
    ∧ runOps db ops = db :=
  ⟨verify_hazard_errs hazard_id notes authority now audit_id db
  , reject_hazard_errs hazard_id notes authority now audit_id db
  , resolve_hazard_errs hazard_id notes authority now audit_id db
  , runOps_fixes db ops⟩

/-- C3 (code defect): no Verify, Reject or Resolve request ever commits, so
the audit table never grows by the one-entry-per-transition rule — every
attempt is a failed transition and appends nothing. -/
theorem failed_transitions_append_no_audit (db : DB) (hazard_id : String)
    (notes : Option String) (authority : Authority) (now : DateTime)
    (audit_id : String) :
    (applyResult db (verify_hazard hazard_id notes authority now audit_id db)).audit_logs
      = db.audit_logs
    ∧ (applyResult db (reject_hazard hazard_id notes authority now audit_id db)).audit_logs
      = db.audit_logs
    ∧ (applyResult db (resolve_hazard hazard_id notes authority now audit_id db)).audit_logs
      = db.audit_logs := by
  refine ⟨?_, ?_, ?_⟩
  · rw [applyResult_eq_of_isErr db _ (verify_hazard_errs hazard_id notes authority now audit_id db)]
  · rw [applyResult_eq_of_isErr db _ (reject_hazard_errs hazard_id notes authority now audit_id db)]
  · rw [applyResult_eq_of_isErr db _ (resolve_hazard_errs hazard_id notes authority now audit_id db)]

/-- C4 (code defect): a NATIONAL-level, deactivated authority passes the auth
dependency of the transition endpoints — `get_current_authority` checks
neither `level` nor `is_active` — and none of Verify/Reject/Resolve fails
with a permission error for it (they fail with the unrelated status-guard
400 instead).  The unused `get_current_verifier` gate would have rejected
this authority, yet it passes a NATIONAL authority whose free-text
jurisdiction string reads "STATE", since it tests the `jurisdiction` string
rather than the `level` column. -/
theorem national_inactive_authority_passes_auth :
    get_current_authority ⟨some "a-nat"⟩ dbSample = .ok authNational
    ∧ authNational.level = AuthorityLevel.NATIONAL
    ∧ authNational.is_active = false
    ∧ verify_endpoint ⟨some "a-nat"⟩ "h1" none 5 "log1" dbSample
        = .error (.badRequest
            "Hazard is in HazardStatus.PENDING_AUTHORITY status, cannot verify")
    ∧ isPermissionDenied (verify_endpoint ⟨some "a-nat"⟩ "h1" none 5 "log1" dbSample) = false
    ∧ isPermissionDenied (reject_endpoint ⟨some "a-nat"⟩ "h1" none 5 "log1" dbSample) = false
    ∧ isPermissionDenied (resolve_endpoint ⟨some "a-nat"⟩ "h2" none 5 "log1" dbSample) = false
    ∧ get_current_verifier ⟨some "a-nat"⟩ dbSample
        = .error (.forbidden "Insufficient permissions. VERIFIER role required.")
    ∧ get_current_verifier ⟨some "a-odd"⟩ dbSample = .ok authOddJurisdiction
    ∧ authOddJurisdiction.level = AuthorityLevel.NATIONAL := by
  decide

/-- C5 (code defect): Verify on a hazard whose status is `PENDING_AUTHORITY`
does not succeed — the guard trips on the `str(enum)` comparison — and even
the success branch as written would not persist `verified_at`: the
assignment targets an attribute with no backing column on `Hazard`, so it is
present on the transient instance but gone after a reload of the committed
row. -/
theorem verify_pending_fails_and_verifiedAt_not_persisted :
    hazardPending.status = HazardStatus.PENDING_AUTHORITY
    ∧ verify_hazard "h1" none authNational 5 "log1" dbSample
        = .error (.badRequest
            "Hazard is in HazardStatus.PENDING_AUTHORITY status, cannot verify")
    ∧ (verifyRowObj hazardPending 5).row.status = HazardStatus.VERIFIED
    ∧ (verifyRowObj hazardPending 5).verified_at = some 5
    ∧ (loadHazard (persistHazard (verifyRowObj hazardPending 5))).verified_at = none := by
  decide

/-- C9 (code defect): the success-branch updates of Reject and Resolve leave
`resolved_at` (and every driver-reported column) at its prior value and set
only `status` — but the ORM's `onupdate` hook also rewrites `updated_at`,
and neither branch is reachable: both operations fail even from their
intended source statuses. -/
theorem rejectResolve_frame_effect (hazard : Hazard) (now : DateTime) :
    (rejectRow hazard now).resolved_at = hazard.resolved_at
    ∧ (resolveRow hazard now).resolved_at = hazard.resolved_at
    ∧ (rejectRow hazard now).id = hazard.id
    ∧ (rejectRow hazard now).hazard_type = hazard.hazard_type
    ∧ (rejectRow hazard now).latitude = hazard.latitude
    ∧ (rejectRow hazard now).longitude = hazard.longitude
    ∧ (rejectRow hazard now).observed_at = hazard.observed_at
    ∧ (rejectRow hazard now).created_at = hazard.created_at
    ∧ (rejectRow hazard now).status = HazardStatus.RESOLVED
    ∧ (rejectRow hazard now).updated_at = now
    ∧ (resolveRow hazard now).status = HazardStatus.RESOLVED
    ∧ (resolveRow hazard now).updated_at = now
    ∧ (rejectRow hazardPending 5).updated_at = 5
    ∧ hazardPending.updated_at = 0
    ∧ isErr (reject_hazard "h1" none authNational 5 "log1" dbSample) = true
    ∧ isErr (resolve_hazard "h2" none authNational 5 "log1" dbSample) = true :=
  ⟨rfl, rfl, rfl, rfl, rfl, rfl, rfl, rfl, rfl, rfl, rfl, rfl
  , by decide, by decide, by decide, by decide⟩

/-- C6 (code defect): the age check `(utcnow() - v).days > 1` only trips at
48 hours, so a report observed 25 hours in the past — more than 24 hours
old — is accepted and a hazard is created, contradicting the 24-hour policy
and the validator's own error message; a 48-hour-old report and a future
report are rejected before any hazard is created. -/
theorem observedAt_24h_window_not_enforced :
    timedeltaDays 90000 = 1
    ∧ validate_observed_at (1000000 - 90000) 1000000 = .ok (1000000 - 90000)
    ∧ isErr (report_hazard .POTHOLE 40 (-74) (1000000 - 90000) 1000000 "h3" dbSample)
        = false
    ∧ validate_observed_at (1000000 - 172800) 1000000
        = .error "observed_at must be within last 24 hours"
    ∧ isErr (report_hazard .POTHOLE 40 (-74) (1000000 - 172800) 1000000 "h3" dbSample)
        = true
    ∧ applyResult dbSample
        (report_hazard .POTHOLE 40 (-74) (1000000 - 172800) 1000000 "h3" dbSample)
      = dbSample
    ∧ validate_observed_at (1000000 + 1) 1000000
        = .error "observed_at cannot be in the future" := by
  decide

/-- C7: a report with latitude in [-90, 90], longitude in [-180, 180] and an
`observed_at` that passes the window check creates exactly one hazard whose
status is `PENDING_AUTHORITY`, whose creation and update timestamps are the
current time and whose `resolved_at` is NULL; a report with out-of-range
latitude or longitude is rejected by validation and no hazard is created. -/
theorem report_valid_creates_pending_invalid_rejected
    (ty : HazardType) (lat lon : Rat) (observed_at now : DateTime)
    (new_id : String) (db : DB)
    (hlat : -90 ≤ lat ∧ lat ≤ 90) (hlon : -180 ≤ lon ∧ lon ≤ 180)
    (hobs : validate_observed_at observed_at now = .ok observed_at) :
    report_hazard ty lat lon observed_at now new_id db
      = .ok ({ db with hazards := db.hazards ++
            [{ id := new_id, hazard_type := ty, latitude := lat, longitude := lon
             , observed_at := some observed_at
             , status := HazardStatus.PENDING_AUTHORITY
             , created_at := now, updated_at := now, resolved_at := none }] }
          , { id := new_id, hazard_type := ty, latitude := lat, longitude := lon
            , observed_at := some observed_at
            , status := HazardStatus.PENDING_AUTHORITY
            , created_at := now, updated_at := now, resolved_at := none })
    ∧ (∀ lat2 lon2 : Rat,
        (¬(-90 ≤ lat2 ∧ lat2 ≤ 90) ∨ ¬(-180 ≤ lon2 ∧ lon2 ≤ 180)) →
        isErr (report_hazard ty lat2 lon2 observed_at now new_id db) = true
        ∧ applyResult db (report_hazard ty lat2 lon2 observed_at now new_id db) = db) := by
  constructor
  · unfold report_hazard validateHazardReport
    rw [if_neg (not_not_intro hlat), if_neg (not_not_intro hlon), hobs]
  · intro lat2 lon2 hbad
    unfold report_hazard validateHazardReport
    rcases hbad with h | h
    · rw [if_pos h]
      exact ⟨rfl, rfl⟩
    · by_cases h1 : (-90 ≤ lat2 ∧ lat2 ≤ 90)
      · rw [if_neg (not_not_intro h1), if_pos h]
        exact ⟨rfl, rfl⟩
      · rw [if_pos h1]
        exact ⟨rfl, rfl⟩

/-- Closed instance of C7 at the spec's scenario input (lat 40, lon -74):
the report is accepted and the created hazard is pending with the request's
timestamps. -/
theorem report_valid_creates_pending_invalid_rejected_witness :
    ((-90 : Rat) ≤ 40 ∧ (40 : Rat) ≤ 90)
    ∧ report_hazard .POTHOLE 40 (-74) 999000 1000000 "hw" dbSample
      = .ok ({ dbSample with hazards := dbSample.hazards ++
            [{ id := "hw", hazard_type := .POTHOLE, latitude := 40, longitude := -74
             , observed_at := some 999000
             , status := HazardStatus.PENDING_AUTHORITY
             , created_at := 1000000, updated_at := 1000000, resolved_at := none }] }
          , { id := "hw", hazard_type := .POTHOLE, latitude := 40, longitude := -74
            , observed_at := some 999000
            , status := HazardStatus.PENDING_AUTHORITY
            , created_at := 1000000, updated_at := 1000000, resolved_at := none }) :=
  ⟨by decide
  , (report_valid_creates_pending_invalid_rejected .POTHOLE 40 (-74) 999000 1000000
      "hw" dbSample (by decide) (by decide) (by decide)).1⟩

/-- C8 (code defect): redemption with no matching record 404s as specified,
but any redemption that finds its record — here an unused, unexpired token —
crashes with `AttributeError` on the nonexistent `used` attribute instead of
checking expiry, marking the token used, or succeeding. -/
theorem token_redemption_crashes_on_found_record :
    verificationRecord.is_verified = false
    ∧ verificationRecord.token_expires_at = 1000000000
    ∧ verify_authority_token "h1" "tok123" dbWithToken
        = .error (.attributeError "used")
    ∧ verify_authority_token "h1" "wrong" dbWithToken
        = .error (.notFound "Invalid verification token")
    ∧ verify_authority_token "h9" "tok123" dbWithToken
        = .error (.notFound "Invalid verification token") := by
  decide

end SafeRoute
